import Mathlib

/-
Verification of the price-oracle client layer: BirdEye and DexScreener
provider clients (src/birdeye.py, src/dexscreener.py, src/helpers.py).

Shallow embedding conventions:
  * Python `Decimal` and JSON numbers are modelled as exact rationals (ℚ);
    Python `float` in the pool selector is likewise modelled as ℚ.
  * A JSON object field that the code reads with `.get`/`in` is an `Option`.
  * Python exceptions become `Except Err` results; the distinct Python
    argument shapes of `InvalidTokens()` / `InvalidTokens(list)` /
    `InvalidTokens(address)` are distinct constructors.
  * Each client operation also returns the list of URLs for which an HTTP
    request was issued, in order, so that "no network call is attempted"
    is a statement about the embedding.
  * Python dicts are association lists in insertion order; `dictInsert`
    mirrors Python dict assignment (update in place, append if new).
-/

deriving instance DecidableEq for Except

namespace Clients

/-- Modelled from the spec: the only exception kind the external address
parser is documented to raise (`Pubkey.from_string` raises `ValueError`
on a malformed address; §4.1, §6 of the spec). -/
inductive PyExc
  | valueError
deriving DecidableEq

/-- The base58 alphabet used by Solana public keys. -/
def BASE58_ALPHABET : List Char :=
  String.toList ("123456789ABCDEFGHJKLMNPQRSTUVWXYZabcdefghijkmnopqrstuvwxyz")

/-- Index of a character in the base58 alphabet, `none` if not a base58 digit. -/
def base58Index (c : Char) : Option Nat :=
  BASE58_ALPHABET.findIdx? (fun d => d = c)

/-- Value of a base58 digit string read positionally; `none` on any
non-alphabet character. -/
def base58Value (cs : List Char) : Option Nat :=
  cs.foldlM (fun acc c => (base58Index c).map (fun d => acc * 58 + d)) 0

/-- Modelled from the spec: whether a string is a well-formed base58
encoding of exactly 32 bytes (the chain public-key format, §3 "Address").
Each leading '1' encodes one zero byte; the remainder encodes a positional
value whose minimal big-endian byte length fills up the rest. -/
def base58Decodes32 (s : String) : Bool :=
  let cs := s.toList
  let ones := (cs.takeWhile (fun c => c = '1')).length
  match base58Value (cs.dropWhile (fun c => c = '1')) with
  | none => false
  | some v =>
    if 32 < ones then false
    else if ones = 32 then v == 0
    else decide (256 ^ (32 - ones - 1) ≤ v) && decide (v < 256 ^ (32 - ones))

/-- Modelled from the spec: the external Solana public-key parser
(`solana.transaction.Pubkey.from_string`, an external collaborator per §1);
it raises `ValueError` exactly when the string does not decode to a 32-byte
public key. -/
def pubkey_from_string (s : String) : Except PyExc Unit :=
  if base58Decodes32 s then Except.ok () else Except.error PyExc.valueError

/-- src/helpers.py `is_solana_address`: calls the parser inside
`try ... except ValueError`, returning `True` on success and `False` when
`ValueError` is caught.  Its own result is therefore never an exception. -/
def is_solana_address (s : String) : Except PyExc Bool :=
  match pubkey_from_string s with
  | Except.ok _ => Except.ok true
  | Except.error PyExc.valueError => Except.ok false

/-- The error taxonomy raised by the clients.  The exception classes live in
`custom_exceptions`, which is not under src/; the constructors here are
modelled from the spec's §7 taxonomy plus the raise sites visible in src/.
`noLiquidityError` is the spec's taxonomy member; the source instead raises
`ValueError(NO_LIQUDITY)`, embedded as `valueError`.  `pyError` is an
uncaught exception propagating from the helper layer. -/
inductive Err
  | noPositionsError
  | invalidSolanaAddress (address : String)
  | invalidTokensNone
  | invalidTokensList (addresses : List String)
  | invalidTokensAddr (address : String)
  | decimalsNotFoundError
  | noLiquidityError
  | valueError (msg : String)
  | pyError (e : PyExc)
deriving DecidableEq

/-- Modelled from the spec: the message constant imported from
`custom_exceptions` (module not under src/); its exact text is unknown and
irrelevant to the claims, only its identity matters. -/
def NO_LIQUDITY : String := "NO_LIQUDITY"

/-- Modelled from the spec: `common.PriceInfo` (module `common` is not under
src/); §3: price and liquidity, both arbitrary-precision decimals. -/
structure PriceInfo where
  price : ℚ
  liquidity : ℚ
deriving DecidableEq

/-- Modelled from the spec: `common.TokenOverview` (module `common` is not
under src/); §3 field list, in the positional order used by
`BirdEyeClient.fetch_token_overview`. -/
structure TokenOverview where
  price : ℚ
  symbol : String
  decimals : Int
  lastTradeUnixTime : Int
  liquidity : ℚ
  supply : ℚ
deriving DecidableEq

/-- One per-address entry of the BirdEye multi-price response
(`data[<address>]`): every field the code reads, each optional. `otherKeys`
records keys of the JSON object that the code never reads — they matter
only for Python's `if not token_data` emptiness test. -/
structure BirdTokenData where
  value : Option ℚ
  liquidity : Option ℚ
  symbol : Option String
  decimals : Option Int
  lastTradeUnixTime : Option Int
  supply : Option ℚ
  otherKeys : List String
deriving DecidableEq

/-- The empty JSON object as a BirdEye entry (Python `{}`). -/
def BirdTokenData.emptyDict : BirdTokenData :=
  ⟨none, none, none, none, none, none, []⟩

/-- Python truthiness of the entry as a dict: `{}` is falsy. -/
def BirdTokenData.isEmptyDict (t : BirdTokenData) : Bool :=
  t == BirdTokenData.emptyDict

/-- A decoded BirdEye HTTP response: status code and the `"data"` object as
an association list in JSON-object order (dict keys are unique upstream). -/
structure BirdResponse where
  status_code : Nat
  data : List (String × BirdTokenData)
deriving DecidableEq

/-- The flat JSON object the DexScreener code reads from `response.json()`:
every field accessed with `.get`, each optional. -/
structure DexData where
  price : Option ℚ
  liquidity : Option ℚ
  symbol : Option String
  decimals : Option Int
  lastTradeUnixTime : Option Int
  supply : Option ℚ
deriving DecidableEq

/-- A decoded DexScreener HTTP response. -/
structure DexResponse where
  status_code : Nat
  data : DexData
deriving DecidableEq

/-- Modelled from the spec: `vars.constants.SOL_MINT` (module not under
src/), the chain's wrapped-native-asset (wrapped SOL) mint address. -/
def SOL_MINT : String := "So11111111111111111111111111111111111111112"

/-- Python dict assignment `d[k] = v` on an insertion-ordered dict:
update in place if the key exists, else append. -/
def dictInsert (k : String) (v : α) : List (String × α) → List (String × α)
  | [] => [(k, v)]
  | (k', v') :: rest =>
    if k' = k then (k, v) :: rest else (k', v') :: dictInsert k v rest

/-- URL built by `BirdEyeClient.fetch_prices` (line 55). -/
def birdeye_multi_price_url (addrs : List String) : String :=
  "https://public-api.birdeye.so/public/multi_price?include_liquidity=true&list_address="
    ++ String.intercalate ("%2C") addrs

/-- URL built by `BirdEyeClient.fetch_token_overview` (line 92). -/
def birdeye_overview_url (address : String) : String :=
  "https://public-api.birdeye.so/public/multi_price?include_liquidity=true&include_decimals=true&list_address="
    ++ address

/-- URL built by the DexScreener per-token fetches (lines 147, 170). -/
def dex_token_url (address : String) : String :=
  "https://api.dexscreener.com/token/" ++ address

/-- Whether a BirdEye entry carries both a `value` and a `liquidity` field
(the membership test on line 62 of src/birdeye.py). -/
def birdEntryValid (e : String × BirdTokenData) : Bool :=
  e.2.value.isSome && e.2.liquidity.isSome

namespace BirdEyeClient

/-- The `for token_address, token_data in data["data"].items()` loop of
`fetch_prices` (src/birdeye.py lines 61-66): entries with both fields go
into the `prices` dict, the rest are appended to `invalid_tokens`. -/
def pricesLoop :
    List (String × BirdTokenData) → List (String × PriceInfo) → List String →
      List (String × PriceInfo) × List String
  | [], prices, invalid => (prices, invalid)
  | (a, td) :: rest, prices, invalid =>
    match td.value, td.liquidity with
    | some v, some l => pricesLoop rest (dictInsert a ⟨v, l⟩ prices) invalid
    | some _, none => pricesLoop rest prices (invalid ++ [a])
    | none, _ => pricesLoop rest prices (invalid ++ [a])

/-- The prices dict built by `pricesLoop` when every entry is valid:
each entry inserted in response order with its two mandatory fields. -/
def insertAllBird :
    List (String × BirdTokenData) → List (String × PriceInfo) → List (String × PriceInfo)
  | [], prices => prices
  | (a, td) :: rest, prices =>
    insertAllBird rest (dictInsert a ⟨td.value.getD 0, td.liquidity.getD 0⟩ prices)

/-- src/birdeye.py `BirdEyeClient.fetch_prices` (lines 38-71).  `resp` is
the decoded answer of the transport to the one batched GET request; the
first component of the result is the list of URLs actually requested. -/
def fetch_prices (resp : BirdResponse) (token_addresses : List String) :
    List String × Except Err (List (String × PriceInfo)) :=
  if token_addresses = [] then ([], Except.error Err.noPositionsError)
  else
    let url := birdeye_multi_price_url token_addresses
    if resp.status_code = 200 then
      let r := pricesLoop resp.data [] []
      if r.2 ≠ [] then ([url], Except.error (Err.invalidTokensList r.2))
      else ([url], Except.ok r.1)
    else ([url], Except.error Err.invalidTokensNone)

/-- src/birdeye.py `BirdEyeClient.fetch_token_overview` (lines 73-113). -/
def fetch_token_overview (resp : BirdResponse) (address : String) :
    List String × Except Err TokenOverview :=
  match is_solana_address address with
  | Except.error e => ([], Except.error (Err.pyError e))
  | Except.ok false => ([], Except.error (Err.invalidSolanaAddress address))
  | Except.ok true =>
    let url := birdeye_overview_url address
    if resp.status_code = 200 then
      let token_data := (List.lookup address resp.data).getD BirdTokenData.emptyDict
      if token_data.isEmptyDict then
        ([url], Except.error (Err.invalidTokensAddr address))
      else
        let price := token_data.value.getD 0
        let symbol := token_data.symbol.getD ("")
        let decimals := token_data.decimals.getD 0
        let last_trade_unix_time := token_data.lastTradeUnixTime.getD 0
        let liquidity := token_data.liquidity.getD 0
        let supply := token_data.supply.getD 0
        if decimals = 0 then ([url], Except.error Err.decimalsNotFoundError)
        else if liquidity = 0 then ([url], Except.error (Err.valueError NO_LIQUDITY))
        else ([url], Except.ok ⟨price, symbol, decimals, last_trade_unix_time, liquidity, supply⟩)
    else ([url], Except.error Err.invalidTokensNone)

end BirdEyeClient

namespace DexScreenerClient

/-- src/dexscreener.py `DexScreenerClient._validate_token_address`
(lines 21-41): empty string fails `NoPositionsError`; then
`is_solana_address` is called under `try ... except ValueError`, whose
handler raises `InvalidSolanaAddress`; the boolean verdict is discarded. -/
def _validate_token_address (token_address : String) : Except Err Unit :=
  if token_address = "" then Except.error Err.noPositionsError
  else
    match is_solana_address token_address with
    | Except.error PyExc.valueError =>
      Except.error (Err.invalidSolanaAddress token_address)
    | Except.ok _ => Except.ok ()

/-- src/dexscreener.py `DexScreenerClient._validate_response`
(lines 62-77): non-200 status fails `InvalidTokens()`. -/
def _validate_response (resp : DexResponse) : Except Err Unit :=
  if resp.status_code ≠ 200 then Except.error Err.invalidTokensNone
  else Except.ok ()

/-- The `for address in token_addresses` loop of `fetch_prices_dex`
(src/dexscreener.py lines 144-153).  `net` maps a URL to the transport's
response; `trace` accumulates requested URLs in reverse. -/
def pricesDexLoop (net : String → DexResponse) :
    List String → List (String × PriceInfo) → List String →
      List String × Except Err (List (String × PriceInfo))
  | [], prices, trace => (trace.reverse, Except.ok prices)
  | address :: rest, prices, trace =>
    match is_solana_address address with
    | Except.error e => (trace.reverse, Except.error (Err.pyError e))
    | Except.ok false => (trace.reverse, Except.error (Err.invalidSolanaAddress address))
    | Except.ok true =>
      let url := dex_token_url address
      let resp := net url
      match _validate_response resp with
      | Except.error err => ((url :: trace).reverse, Except.error err)
      | Except.ok _ =>
        let price := resp.data.price.getD 0
        let liquidity := resp.data.liquidity.getD 0
        pricesDexLoop net rest (dictInsert address ⟨price, liquidity⟩ prices) (url :: trace)

/-- src/dexscreener.py `DexScreenerClient.fetch_prices_dex` (lines 129-155). -/
def fetch_prices_dex (net : String → DexResponse) (token_addresses : List String) :
    List String × Except Err (List (String × PriceInfo)) :=
  if token_addresses = [] then ([], Except.error Err.noPositionsError)
  else pricesDexLoop net token_addresses [] []

/-- src/dexscreener.py `DexScreenerClient.fetch_token_overview`
(lines 157-188): validate address, one GET, validate status, build the
overview from the payload with zero/empty defaults, no further checks. -/
def fetch_token_overview (net : String → DexResponse) (address : String) :
    List String × Except Err TokenOverview :=
  match is_solana_address address with
  | Except.error e => ([], Except.error (Err.pyError e))
  | Except.ok false => ([], Except.error (Err.invalidSolanaAddress address))
  | Except.ok true =>
    let url := dex_token_url address
    let resp := net url
    match _validate_response resp with
    | Except.error err => ([url], Except.error err)
    | Except.ok _ =>
      let d := resp.data
      ([url], Except.ok ⟨d.price.getD 0, d.symbol.getD (""), d.decimals.getD 0,
        d.lastTradeUnixTime.getD 0, d.liquidity.getD 0, d.supply.getD 0⟩)

/-- A trading-pair record as read by `find_largest_pool_with_sol`:
`entry.get("baseToken", {}).get("address")` is optional,
`entry["quoteToken"]["address"]` is a mandatory key (a record lacking it
would crash; §3 TradingPair lists it as a field),
`entry.get("liquidity", {}).get("usd", 0)` is optional with default 0. -/
structure TokenPair where
  baseTokenAddress : Option String
  quoteTokenAddress : String
  liquidityUsd : Option ℚ
deriving DecidableEq

/-- The filter on line 197 of src/dexscreener.py: base token equals the
given address and quote token equals the wrapped-SOL mint. -/
def poolMatches (address : String) (p : TokenPair) : Bool :=
  p.baseTokenAddress == some address && p.quoteTokenAddress == SOL_MINT

/-- `float(entry.get("liquidity", {}).get("usd", 0))` (line 198), the
float conversion modelled as exact. -/
def liquidityUsdOf (p : TokenPair) : ℚ :=
  p.liquidityUsd.getD 0

/-- The loop of `find_largest_pool_with_sol` (src/dexscreener.py
lines 195-201), carrying `max_entry` and `max_liquidity_usd`. -/
def poolLoop (address : String) :
    List TokenPair → Option TokenPair → ℚ → Option TokenPair
  | [], maxEntry, _ => maxEntry
  | entry :: rest, maxEntry, maxLiq =>
    if poolMatches address entry then
      let liquidity_usd := liquidityUsdOf entry
      if maxLiq < liquidity_usd then poolLoop address rest (some entry) liquidity_usd
      else poolLoop address rest maxEntry maxLiq
    else poolLoop address rest maxEntry maxLiq

/-- src/dexscreener.py `DexScreenerClient.find_largest_pool_with_sol`
(lines 190-202); `max_entry` starts as the empty dict (here `none`) and
`max_liquidity_usd` as `-1`. -/
def find_largest_pool_with_sol (token_pairs : List TokenPair) (address : String) :
    Option TokenPair :=
  poolLoop address token_pairs none (-1)

end DexScreenerClient

/-! Helper lemmas shared by the claim theorems. -/

theorem is_solana_address_eq (s : String) :
    is_solana_address s = Except.ok (base58Decodes32 s) := by
  unfold is_solana_address pubkey_from_string
  cases h : base58Decodes32 s <;> simp [h]

theorem lookup_dictInsert_self (k : String) (v : α) (d : List (String × α)) :
    List.lookup k (dictInsert k v d) = some v := by
  induction d with
  | nil => simp [dictInsert, List.lookup]
  | cons e rest ih =>
    obtain ⟨k', v'⟩ := e
    by_cases h : k' = k
    · subst h; simp [dictInsert, List.lookup]
    · have hkk : (k == k') = false := beq_eq_false_iff_ne.mpr (Ne.symm h)
      simp [dictInsert, h, List.lookup, hkk, ih]

theorem lookup_dictInsert_ne (a k : String) (v : α) (d : List (String × α))
    (h : a ≠ k) : List.lookup a (dictInsert k v d) = List.lookup a d := by
  have hak : (a == k) = false := beq_eq_false_iff_ne.mpr h
  induction d with
  | nil => simp [dictInsert, List.lookup, hak]
  | cons e rest ih =>
    obtain ⟨k', v'⟩ := e
    by_cases h' : k' = k
    · subst h'; simp [dictInsert, List.lookup, hak]
    · have hkk : (k' == k) = false := beq_eq_false_iff_ne.mpr h'
      simp [dictInsert, h', List.lookup, ih]

theorem pricesLoop_snd (data : List (String × BirdTokenData))
    (prices : List (String × PriceInfo)) (invalid : List String) :
    (BirdEyeClient.pricesLoop data prices invalid).2 =
      invalid ++ (data.filter (fun e => !birdEntryValid e)).map Prod.fst := by
  induction data generalizing prices invalid with
  | nil => simp [BirdEyeClient.pricesLoop]
  | cons e rest ih =>
    obtain ⟨a, td⟩ := e
    rcases hv : td.value with _ | v <;> rcases hl : td.liquidity with _ | l <;>
      simp [BirdEyeClient.pricesLoop, hv, hl, birdEntryValid, ih]

theorem pricesLoop_fst_of_valid (data : List (String × BirdTokenData))
    (prices : List (String × PriceInfo)) (invalid : List String)
    (h : ∀ e ∈ data, birdEntryValid e = true) :
    (BirdEyeClient.pricesLoop data prices invalid).1 =
      BirdEyeClient.insertAllBird data prices := by
  induction data generalizing prices invalid with
  | nil => simp [BirdEyeClient.pricesLoop, BirdEyeClient.insertAllBird]
  | cons e rest ih =>
    obtain ⟨a, td⟩ := e
    have he := h (a, td) (by simp)
    simp only [birdEntryValid, Bool.and_eq_true, Option.isSome_iff_exists] at he
    obtain ⟨⟨v, hv⟩, ⟨l, hl⟩⟩ := he
    simp only [BirdEyeClient.pricesLoop, BirdEyeClient.insertAllBird, hv, hl,
      Option.getD_some]
    exact ih _ _ (fun e' he' => h e' (by simp [he']))

theorem lookup_insertAllBird_notmem (a : String)
    (data : List (String × BirdTokenData)) (prices : List (String × PriceInfo))
    (h : a ∉ data.map Prod.fst) :
    List.lookup a (BirdEyeClient.insertAllBird data prices) = List.lookup a prices := by
  induction data generalizing prices with
  | nil => simp [BirdEyeClient.insertAllBird]
  | cons e rest ih =>
    obtain ⟨b, td⟩ := e
    simp only [List.map_cons, List.mem_cons, not_or] at h
    simp only [BirdEyeClient.insertAllBird]
    rw [ih _ h.2, lookup_dictInsert_ne _ _ _ _ h.1]

theorem lookup_insertAllBird_mem (data : List (String × BirdTokenData))
    (prices : List (String × PriceInfo)) (hnd : (data.map Prod.fst).Nodup)
    (a : String) (td : BirdTokenData) (hmem : (a, td) ∈ data) :
    List.lookup a (BirdEyeClient.insertAllBird data prices) =
      some ⟨td.value.getD 0, td.liquidity.getD 0⟩ := by
  induction data generalizing prices with
  | nil => cases hmem
  | cons e rest ih =>
    obtain ⟨b, tb⟩ := e
    simp only [List.map_cons, List.nodup_cons] at hnd
    rcases List.mem_cons.mp hmem with heq | hmem'
    · cases heq
      simp only [BirdEyeClient.insertAllBird]
      rw [lookup_insertAllBird_notmem _ _ _ hnd.1, lookup_dictInsert_self]
    · simp only [BirdEyeClient.insertAllBird]
      exact ih _ hnd.2 hmem'

theorem poolLoop_none_iff (address : String) (l : List DexScreenerClient.TokenPair)
    (acc : Option DexScreenerClient.TokenPair) (m : ℚ) :
    DexScreenerClient.poolLoop address l acc m = none ↔
      (acc = none ∧ ∀ p ∈ l, DexScreenerClient.poolMatches address p = true →
        DexScreenerClient.liquidityUsdOf p ≤ m) := by
  induction l generalizing acc m with
  | nil => simp [DexScreenerClient.poolLoop]
  | cons p rest ih =>
    by_cases hm : DexScreenerClient.poolMatches address p = true
    · by_cases hlt : m < DexScreenerClient.liquidityUsdOf p
      · simp only [DexScreenerClient.poolLoop, hm, if_true, if_pos hlt]
        rw [ih]
        constructor
        · rintro ⟨h, -⟩; cases h
        · rintro ⟨-, hall⟩
          exact absurd hlt (not_lt.mpr (hall p (by simp) hm))
      · simp only [DexScreenerClient.poolLoop, hm, if_true, if_neg hlt]
        rw [ih]
        constructor
        · rintro ⟨hacc, hall⟩
          refine ⟨hacc, ?_⟩
          intro q hq hmq
          rcases List.mem_cons.mp hq with rfl | hq'
          · exact not_lt.mp hlt
          · exact hall q hq' hmq
        · rintro ⟨hacc, hall⟩
          exact ⟨hacc, fun q hq hmq => hall q (by simp [hq]) hmq⟩
    · simp only [DexScreenerClient.poolLoop, hm, if_false, Bool.false_eq_true]
      rw [ih]
      constructor
      · rintro ⟨hacc, hall⟩
        refine ⟨hacc, ?_⟩
        intro q hq hmq
        rcases List.mem_cons.mp hq with rfl | hq'
        · exact absurd hmq hm
        · exact hall q hq' hmq
      · rintro ⟨hacc, hall⟩
        exact ⟨hacc, fun q hq hmq => hall q (by simp [hq]) hmq⟩

theorem poolLoop_some_split (address : String) (l : List DexScreenerClient.TokenPair) :
    ∀ (acc : Option DexScreenerClient.TokenPair) (m : ℚ)
      (q : DexScreenerClient.TokenPair),
      DexScreenerClient.poolLoop address l acc m = some q →
      (acc = some q ∧ ∀ p ∈ l, DexScreenerClient.poolMatches address p = true →
        DexScreenerClient.liquidityUsdOf p ≤ m)
      ∨ (∃ l₁ l₂, l = l₁ ++ q :: l₂ ∧ DexScreenerClient.poolMatches address q = true
          ∧ m < DexScreenerClient.liquidityUsdOf q
          ∧ (∀ p ∈ l₁, DexScreenerClient.poolMatches address p = true →
              DexScreenerClient.liquidityUsdOf p < DexScreenerClient.liquidityUsdOf q)
          ∧ (∀ p ∈ l₂, DexScreenerClient.poolMatches address p = true →
              DexScreenerClient.liquidityUsdOf p ≤ DexScreenerClient.liquidityUsdOf q)) := by
  induction l with
  | nil =>
    intro acc m q h
    left
    exact ⟨h, by intro p hp; cases hp⟩
  | cons p rest ih =>
    intro acc m q h
    by_cases hm : DexScreenerClient.poolMatches address p = true
    · by_cases hlt : m < DexScreenerClient.liquidityUsdOf p
      · simp only [DexScreenerClient.poolLoop, hm, if_true, if_pos hlt] at h
        rcases ih _ _ _ h with ⟨hacc, hall⟩ | ⟨r₁, r₂, hsplit, hmq, hltq, h₁, h₂⟩
        · cases hacc
          right
          exact ⟨[], rest, rfl, hm, hlt,
            fun p' hp' => absurd hp' (List.not_mem_nil p'), hall⟩
        · right
          refine ⟨p :: r₁, r₂, by simp [hsplit], hmq, lt_trans hlt hltq, ?_, h₂⟩
          intro p' hp' hmp'
          rcases List.mem_cons.mp hp' with rfl | hp''
          · exact hltq
          · exact h₁ p' hp'' hmp'
      · simp only [DexScreenerClient.poolLoop, hm, if_true, if_neg hlt] at h
        rcases ih _ _ _ h with ⟨hacc, hall⟩ | ⟨r₁, r₂, hsplit, hmq, hltq, h₁, h₂⟩
        · left
          refine ⟨hacc, ?_⟩
          intro p' hp' hmp'
          rcases List.mem_cons.mp hp' with rfl | hp''
          · exact not_lt.mp hlt
          · exact hall p' hp'' hmp'
        · right
          refine ⟨p :: r₁, r₂, by simp [hsplit], hmq, hltq, ?_, h₂⟩
          intro p' hp' hmp'
          rcases List.mem_cons.mp hp' with rfl | hp''
          · exact lt_of_le_of_lt (not_lt.mp hlt) hltq
          · exact h₁ p' hp'' hmp'
    · simp only [DexScreenerClient.poolLoop, hm, if_false, Bool.false_eq_true] at h
      rcases ih _ _ _ h with ⟨hacc, hall⟩ | ⟨r₁, r₂, hsplit, hmq, hltq, h₁, h₂⟩
      · left
        refine ⟨hacc, ?_⟩
        intro p' hp' hmp'
        rcases List.mem_cons.mp hp' with rfl | hp''
        · exact absurd hmp' hm
        · exact hall p' hp'' hmp'
      · right
        refine ⟨p :: r₁, r₂, by simp [hsplit], hmq, hltq, ?_, h₂⟩
        intro p' hp' hmp'
        rcases List.mem_cons.mp hp' with rfl | hp''
        · exact absurd hmp' hm
        · exact h₁ p' hp'' hmp'

theorem pricesDexLoop_invalid (net : String → DexResponse) (bad : String)
    (post : List String) (hbad : is_solana_address bad = Except.ok false) :
    ∀ (pre : List String),
      (∀ a ∈ pre, is_solana_address a = Except.ok true ∧
        (net (dex_token_url a)).status_code = 200) →
      ∀ (prices : List (String × PriceInfo)) (trace : List String),
      DexScreenerClient.pricesDexLoop net (pre ++ bad :: post) prices trace =
        (trace.reverse ++ pre.map dex_token_url,
          Except.error (Err.invalidSolanaAddress bad)) := by
  intro pre
  induction pre with
  | nil =>
    intro _ prices trace
    simp [DexScreenerClient.pricesDexLoop, hbad]
  | cons a pre' ih =>
    intro hpre prices trace
    obtain ⟨ha, h200⟩ := hpre a (by simp)
    simp only [List.cons_append, DexScreenerClient.pricesDexLoop, ha,
      DexScreenerClient._validate_response, h200, ne_eq, not_true_eq_false,
      ite_false, if_neg, List.append_eq]
    rw [ih (fun b hb => hpre b (by simp [hb])) _ _]
    simp

theorem pricesDexLoop_http (net : String → DexResponse) (a : String)
    (post : List String) (ha : is_solana_address a = Except.ok true)
    (hfail : (net (dex_token_url a)).status_code ≠ 200) :
    ∀ (pre : List String),
      (∀ b ∈ pre, is_solana_address b = Except.ok true ∧
        (net (dex_token_url b)).status_code = 200) →
      ∀ (prices : List (String × PriceInfo)) (trace : List String),
      DexScreenerClient.pricesDexLoop net (pre ++ a :: post) prices trace =
        (trace.reverse ++ (pre ++ [a]).map dex_token_url,
          Except.error Err.invalidTokensNone) := by
  intro pre
  induction pre with
  | nil =>
    intro _ prices trace
    simp [DexScreenerClient.pricesDexLoop, ha, DexScreenerClient._validate_response,
      hfail]
  | cons b pre' ih =>
    intro hpre prices trace
    obtain ⟨hb, h200⟩ := hpre b (by simp)
    simp only [List.cons_append, DexScreenerClient.pricesDexLoop, hb,
      DexScreenerClient._validate_response, h200, ne_eq, not_true_eq_false,
      ite_false, if_neg, List.append_eq]
    rw [ih (fun c hc => hpre c (by simp [hc])) _ _]
    simp

/-! Claim theorems. -/

/-- C9: for every non-empty string, `DexScreenerClient._validate_token_address`
returns normally and never raises `InvalidSolanaAddress`: its except-ValueError
branch is unreachable because `is_solana_address` returns a boolean verdict
(`False` for an unparseable address) instead of raising `ValueError`, so
invalid addresses pass this validator silently. -/
theorem validate_token_address_never_rejects (s : String) (h : s ≠ "") :
    DexScreenerClient._validate_token_address s = Except.ok () := by
  unfold DexScreenerClient._validate_token_address
  rw [if_neg h, is_solana_address_eq]

/-- Witness for C9: a non-empty string that is not a valid address still
passes the validator. -/
theorem validate_token_address_never_rejects_witness :
    is_solana_address ("not-an-address") = Except.ok false ∧
    DexScreenerClient._validate_token_address ("not-an-address") = Except.ok () :=
  ⟨by decide, validate_token_address_never_rejects ("not-an-address") (by decide)⟩

/-- C5 (amended): an empty address list makes both batch fetches fail with
`NoPositionsError` before any network call; but an empty string passed to a
single-address fetch fails with `InvalidSolanaAddress` (the empty string
fails address parsing), not `NoPositionsError`, likewise before any network
call. -/
theorem empty_input_failures :
    (∀ resp, BirdEyeClient.fetch_prices resp [] =
      ([], Except.error Err.noPositionsError))
    ∧ (∀ net, DexScreenerClient.fetch_prices_dex net [] =
      ([], Except.error Err.noPositionsError))
    ∧ (∀ resp, BirdEyeClient.fetch_token_overview resp ("") =
      ([], Except.error (Err.invalidSolanaAddress (""))))
    ∧ (∀ net, DexScreenerClient.fetch_token_overview net ("") =
      ([], Except.error (Err.invalidSolanaAddress ("")))) := by
  have h : is_solana_address ("") = Except.ok false := by decide
  refine ⟨fun resp => by simp [BirdEyeClient.fetch_prices],
    fun net => by simp [DexScreenerClient.fetch_prices_dex],
    fun resp => ?_, fun net => ?_⟩
  · unfold BirdEyeClient.fetch_token_overview
    rw [h]
  · unfold DexScreenerClient.fetch_token_overview
    rw [h]

/-- Counterexample for C5 as stated: the empty string passed to BirdEye
`fetch_token_overview` fails with `InvalidSolanaAddress`, not with
`NoPositionsError` as the claim asserts. -/
theorem empty_string_overview_not_nopositions :
    BirdEyeClient.fetch_token_overview ⟨200, []⟩ ("") =
      ([], Except.error (Err.invalidSolanaAddress (""))) ∧
    (BirdEyeClient.fetch_token_overview ⟨200, []⟩ ("")).2 ≠
      Except.error Err.noPositionsError := by
  constructor <;> decide

/-- C7: DexScreener `fetch_token_overview` never applies the decimals-zero
or liquidity-zero checks: for every 200-status payload (including one where
decimals or liquidity resolves to 0 after defaulting) it returns a
`TokenOverview` built from the payload with zero/empty defaults, and never
raises `DecimalsNotFoundError` or `NoLiquidityError`. -/
theorem dex_overview_best_effort (net : String → DexResponse) (address : String)
    (hval : is_solana_address address = Except.ok true)
    (h200 : (net (dex_token_url address)).status_code = 200) :
    DexScreenerClient.fetch_token_overview net address =
      ([dex_token_url address], Except.ok
        ⟨(net (dex_token_url address)).data.price.getD 0,
         (net (dex_token_url address)).data.symbol.getD (""),
         (net (dex_token_url address)).data.decimals.getD 0,
         (net (dex_token_url address)).data.lastTradeUnixTime.getD 0,
         (net (dex_token_url address)).data.liquidity.getD 0,
         (net (dex_token_url address)).data.supply.getD 0⟩)
    ∧ (DexScreenerClient.fetch_token_overview net address).2 ≠
        Except.error Err.decimalsNotFoundError
    ∧ (DexScreenerClient.fetch_token_overview net address).2 ≠
        Except.error Err.noLiquidityError
    ∧ (DexScreenerClient.fetch_token_overview net address).2 ≠
        Except.error (Err.valueError NO_LIQUDITY) := by
  have hmain : DexScreenerClient.fetch_token_overview net address =
      ([dex_token_url address], Except.ok
        ⟨(net (dex_token_url address)).data.price.getD 0,
         (net (dex_token_url address)).data.symbol.getD (""),
         (net (dex_token_url address)).data.decimals.getD 0,
         (net (dex_token_url address)).data.lastTradeUnixTime.getD 0,
         (net (dex_token_url address)).data.liquidity.getD 0,
         (net (dex_token_url address)).data.supply.getD 0⟩) := by
    unfold DexScreenerClient.fetch_token_overview
    rw [hval]
    simp [DexScreenerClient._validate_response, h200]
  exact ⟨hmain, by rw [hmain]; simp, by rw [hmain]; simp, by rw [hmain]; simp⟩

/-- Witness for C7: a 200 payload with `decimals` absent (defaulting to 0)
and `liquidity: 0` still yields a `TokenOverview`, with no error. -/
theorem dex_overview_best_effort_witness :
    DexScreenerClient.fetch_token_overview
        (fun _ => ⟨200, ⟨none, some 0, none, none, none, none⟩⟩)
        ("11111111111111111111111111111111") =
      ([dex_token_url ("11111111111111111111111111111111")],
        Except.ok ⟨0, "", 0, 0, 0, 0⟩) := by
  have h := dex_overview_best_effort
    (fun _ => ⟨200, ⟨none, some 0, none, none, none, none⟩⟩)
    ("11111111111111111111111111111111") (by decide) (by decide)
  simpa using h.1

/-- C4 (amended): for every string failing address parsing, the three
operations that do validate — BirdEye `fetch_token_overview`, DexScreener
`fetch_prices_dex` and `fetch_token_overview` — fail with
`InvalidSolanaAddress` and attempt no network call; but BirdEye
`fetch_prices` performs no address validation at all and issues its network
call regardless. -/
theorem invalid_address_rejection_by_operation (address : String)
    (hbad : is_solana_address address = Except.ok false) :
    (∀ resp, BirdEyeClient.fetch_token_overview resp address =
      ([], Except.error (Err.invalidSolanaAddress address)))
    ∧ (∀ net, DexScreenerClient.fetch_prices_dex net [address] =
      ([], Except.error (Err.invalidSolanaAddress address)))
    ∧ (∀ net, DexScreenerClient.fetch_token_overview net address =
      ([], Except.error (Err.invalidSolanaAddress address)))
    ∧ (∀ resp, (BirdEyeClient.fetch_prices resp [address]).1 =
      [birdeye_multi_price_url [address]]) := by
  refine ⟨fun resp => ?_, fun net => ?_, fun net => ?_, fun resp => ?_⟩
  · unfold BirdEyeClient.fetch_token_overview
    rw [hbad]
  · unfold DexScreenerClient.fetch_prices_dex
    rw [if_neg (by simp)]
    unfold DexScreenerClient.pricesDexLoop
    rw [hbad]
    simp
  · unfold DexScreenerClient.fetch_token_overview
    rw [hbad]
  · unfold BirdEyeClient.fetch_prices
    rw [if_neg (show ([address] : List String) ≠ [] by simp)]
    by_cases h : resp.status_code = 200
    · rw [if_pos h]
      dsimp only
      split <;> rfl
    · rw [if_neg h]

/-- Counterexample for C4 as stated: BirdEye `fetch_prices` does not
validate addresses — for an invalid address it still issues the network
call and, on a well-formed 200 response, returns a mapping instead of
failing with `InvalidSolanaAddress`. -/
theorem birdeye_fetch_prices_skips_address_validation :
    is_solana_address ("!!") = Except.ok false ∧
    BirdEyeClient.fetch_prices
        ⟨200, [(("!!"), ⟨some 3, some 5, none, none, none, none, []⟩)]⟩ [("!!")] =
      ([birdeye_multi_price_url [("!!")]], Except.ok [(("!!"), ⟨3, 5⟩)]) := by
  constructor <;> decide

/-- Witness for C4's amended theorem at a concrete invalid address. -/
theorem invalid_address_rejection_by_operation_witness :
    BirdEyeClient.fetch_token_overview ⟨200, []⟩ ("bad") =
      ([], Except.error (Err.invalidSolanaAddress ("bad"))) ∧
    DexScreenerClient.fetch_prices_dex
        (fun _ => ⟨200, ⟨none, none, none, none, none, none⟩⟩) [("bad")] =
      ([], Except.error (Err.invalidSolanaAddress ("bad"))) := by
  have h := invalid_address_rejection_by_operation ("bad") (by decide)
  exact ⟨h.1 _, h.2.1 _⟩

/-- C3 (amended): in BirdEye `fetch_token_overview`, after field extraction
with zero defaults, validation runs in this order: if decimals resolves to 0
the call fails with `DecimalsNotFoundError` regardless of other fields;
otherwise if liquidity resolves to 0 the call fails with a plain
`ValueError` carrying the `NO_LIQUDITY` message (not a dedicated
`NoLiquidityError`); otherwise a `TokenOverview` populated from the payload
is returned. -/
theorem birdeye_overview_validation_order (resp : BirdResponse) (address : String)
    (td : BirdTokenData)
    (hval : is_solana_address address = Except.ok true)
    (h200 : resp.status_code = 200)
    (hlook : List.lookup address resp.data = some td)
    (hne : td.isEmptyDict = false) :
    (td.decimals.getD 0 = 0 →
      BirdEyeClient.fetch_token_overview resp address =
        ([birdeye_overview_url address], Except.error Err.decimalsNotFoundError))
    ∧ (td.decimals.getD 0 ≠ 0 → td.liquidity.getD 0 = 0 →
      BirdEyeClient.fetch_token_overview resp address =
        ([birdeye_overview_url address], Except.error (Err.valueError NO_LIQUDITY)))
    ∧ (td.decimals.getD 0 ≠ 0 → td.liquidity.getD 0 ≠ 0 →
      BirdEyeClient.fetch_token_overview resp address =
        ([birdeye_overview_url address], Except.ok
          ⟨td.value.getD 0, td.symbol.getD (""), td.decimals.getD 0,
            td.lastTradeUnixTime.getD 0, td.liquidity.getD 0, td.supply.getD 0⟩)) := by
  refine ⟨?_, ?_, ?_⟩
  · intro hdec
    unfold BirdEyeClient.fetch_token_overview
    rw [hval]
    simp [h200, hlook, hne, hdec]
  · intro hdec hliq
    unfold BirdEyeClient.fetch_token_overview
    rw [hval]
    simp [h200, hlook, hne, hdec, hliq]
  · intro hdec hliq
    unfold BirdEyeClient.fetch_token_overview
    rw [hval]
    simp [h200, hlook, hne, hdec, hliq]

/-- Counterexample for C3 as stated: with `decimals: 5, liquidity: 0` the
call fails with `ValueError(NO_LIQUDITY)`, which is not the spec's
`NoLiquidityError` taxonomy member. -/
theorem birdeye_overview_liquidity_zero_raises_valueerror :
    BirdEyeClient.fetch_token_overview
        ⟨200, [(("11111111111111111111111111111111"),
          ⟨some 3, some 0, none, some 5, none, none, []⟩)]⟩
        ("11111111111111111111111111111111") =
      ([birdeye_overview_url ("11111111111111111111111111111111")],
        Except.error (Err.valueError NO_LIQUDITY)) ∧
    (BirdEyeClient.fetch_token_overview
        ⟨200, [(("11111111111111111111111111111111"),
          ⟨some 3, some 0, none, some 5, none, none, []⟩)]⟩
        ("11111111111111111111111111111111")).2 ≠
      Except.error Err.noLiquidityError := by
  constructor <;> decide

/-- Witness for C3's amended theorem: `decimals: 5, liquidity: 100` returns
a fully populated `TokenOverview`. -/
theorem birdeye_overview_validation_order_witness :
    BirdEyeClient.fetch_token_overview
        ⟨200, [(("11111111111111111111111111111111"),
          ⟨some 3, some 100, some ("SOL"), some 5, some 7, some 11, []⟩)]⟩
        ("11111111111111111111111111111111") =
      ([birdeye_overview_url ("11111111111111111111111111111111")],
        Except.ok ⟨3, "SOL", 5, 7, 100, 11⟩) := by
  have h := birdeye_overview_validation_order
      ⟨200, [(("11111111111111111111111111111111"),
        ⟨some 3, some 100, some ("SOL"), some 5, some 7, some 11, []⟩)]⟩
      ("11111111111111111111111111111111")
      ⟨some 3, some 100, some ("SOL"), some 5, some 7, some 11, []⟩
      (by decide) rfl (by decide) (by decide)
  simpa using h.2.2 (by decide) (by decide)

/-- C1: BirdEye `fetch_prices` is all-or-nothing over the batch: for every
200-status response, if every per-address entry carries both a `value` and
a `liquidity` field, the result maps every address in the response to a
`PriceInfo` with those decimal values; if any entry lacks either field, the
whole call fails with `InvalidTokens` carrying exactly the list of
offending addresses, and no partial mapping is returned. -/
theorem birdeye_fetch_prices_all_or_nothing (resp : BirdResponse)
    (token_addresses : List String) (hne : token_addresses ≠ [])
    (h200 : resp.status_code = 200) :
    ((∀ e ∈ resp.data, birdEntryValid e = true) → (resp.data.map Prod.fst).Nodup →
      ∃ prices, BirdEyeClient.fetch_prices resp token_addresses =
          ([birdeye_multi_price_url token_addresses], Except.ok prices) ∧
        ∀ a td, (a, td) ∈ resp.data → ∀ v l, td.value = some v → td.liquidity = some l →
          List.lookup a prices = some ⟨v, l⟩)
    ∧ ((∃ e ∈ resp.data, birdEntryValid e = false) →
      BirdEyeClient.fetch_prices resp token_addresses =
        ([birdeye_multi_price_url token_addresses],
          Except.error (Err.invalidTokensList
            ((resp.data.filter (fun e => !birdEntryValid e)).map Prod.fst)))) := by
  constructor
  · intro hall hnd
    have h2 : (BirdEyeClient.pricesLoop resp.data [] []).2 = [] := by
      rw [pricesLoop_snd]
      simp only [List.nil_append, List.map_eq_nil_iff]
      apply List.filter_eq_nil_iff.mpr
      intro e he
      simp [hall e he]
    refine ⟨BirdEyeClient.insertAllBird resp.data [], ?_, ?_⟩
    · unfold BirdEyeClient.fetch_prices
      rw [if_neg hne, if_pos h200]
      dsimp only
      rw [if_neg (by simp [h2]), pricesLoop_fst_of_valid _ _ _ hall]
    · intro a td hmem v l hv hl
      rw [lookup_insertAllBird_mem resp.data [] hnd a td hmem, hv, hl]
      rfl
  · rintro ⟨e, hmem, hbadv⟩
    have h2 : (BirdEyeClient.pricesLoop resp.data [] []).2 =
        (resp.data.filter (fun e => !birdEntryValid e)).map Prod.fst := by
      rw [pricesLoop_snd]; simp
    have hne2 : (BirdEyeClient.pricesLoop resp.data [] []).2 ≠ [] := by
      rw [h2]
      simp only [ne_eq, List.map_eq_nil_iff, List.filter_eq_nil_iff, not_forall]
      exact ⟨e, hmem, by simp [hbadv]⟩
    unfold BirdEyeClient.fetch_prices
    rw [if_neg hne, if_pos h200]
    dsimp only
    rw [if_pos hne2, h2]

/-- Witness for C1: a one-entry 200 response with both fields yields the
mapping with exactly those decimal values. -/
theorem birdeye_fetch_prices_all_or_nothing_witness :
    ∃ prices, BirdEyeClient.fetch_prices
        ⟨200, [(("A"), ⟨some 3, some 5, none, none, none, none, []⟩)]⟩ [("A")] =
        ([birdeye_multi_price_url [("A")]], Except.ok prices) ∧
      List.lookup ("A") prices = some ⟨3, 5⟩ := by
  obtain ⟨prices, heq, hlook⟩ := (birdeye_fetch_prices_all_or_nothing
      ⟨200, [(("A"), ⟨some 3, some 5, none, none, none, none, []⟩)]⟩ [("A")]
      (by decide) rfl).1 (by decide) (by decide)
  exact ⟨prices, heq,
    hlook ("A") ⟨some 3, some 5, none, none, none, none, []⟩ (by simp) 3 5 rfl rfl⟩

/-- C2 (amended): the "missing field ⇒ no PriceInfo, token marked invalid"
invariant holds for BirdEye `fetch_prices` (any entry lacking `value` or
`liquidity` makes the whole call fail with `InvalidTokens` listing that
address); but DexScreener `fetch_prices_dex` violates it: it substitutes
`Decimal(0)` defaults for missing `price`/`liquidity` fields and still
produces a `PriceInfo` for the token. -/
theorem priceinfo_field_presence_by_provider :
    (∀ (resp : BirdResponse) (token_addresses : List String) (a : String)
        (td : BirdTokenData),
      token_addresses ≠ [] → resp.status_code = 200 → (a, td) ∈ resp.data →
      birdEntryValid (a, td) = false →
      ∃ L, BirdEyeClient.fetch_prices resp token_addresses =
          ([birdeye_multi_price_url token_addresses],
            Except.error (Err.invalidTokensList L)) ∧ a ∈ L)
    ∧ (∀ (net : String → DexResponse) (a : String),
      is_solana_address a = Except.ok true →
      (net (dex_token_url a)).status_code = 200 →
      (net (dex_token_url a)).data.price = none →
      (net (dex_token_url a)).data.liquidity = none →
      DexScreenerClient.fetch_prices_dex net [a] =
        ([dex_token_url a], Except.ok [(a, ⟨0, 0⟩)])) := by
  constructor
  · intro resp token_addresses a td hne h200 hmem hbad
    have h2 : (BirdEyeClient.pricesLoop resp.data [] []).2 =
        (resp.data.filter (fun e => !birdEntryValid e)).map Prod.fst := by
      rw [pricesLoop_snd]; simp
    have hne2 : (BirdEyeClient.pricesLoop resp.data [] []).2 ≠ [] := by
      rw [h2]
      simp only [ne_eq, List.map_eq_nil_iff, List.filter_eq_nil_iff, not_forall]
      exact ⟨(a, td), hmem, by simp [hbad]⟩
    refine ⟨(resp.data.filter (fun e => !birdEntryValid e)).map Prod.fst, ?_, ?_⟩
    · unfold BirdEyeClient.fetch_prices
      rw [if_neg hne, if_pos h200]
      dsimp only
      rw [if_pos hne2, h2]
    · exact List.mem_map.mpr
        ⟨(a, td), List.mem_filter.mpr ⟨hmem, by simp [hbad]⟩, rfl⟩
  · intro net a hval h200 hp hl
    unfold DexScreenerClient.fetch_prices_dex
    rw [if_neg (by simp)]
    unfold DexScreenerClient.pricesDexLoop
    rw [hval]
    simp [DexScreenerClient._validate_response, h200, hp, hl,
      DexScreenerClient.pricesDexLoop, dictInsert]

/-- Counterexample for C2 as stated: a DexScreener 200 response with both
`price` and `liquidity` absent still produces a `PriceInfo` (with zero
defaults) instead of marking the token invalid. -/
theorem dex_missing_fields_produce_priceinfo :
    DexScreenerClient.fetch_prices_dex
        (fun _ => ⟨200, ⟨none, none, none, none, none, none⟩⟩)
        [("11111111111111111111111111111111")] =
      ([dex_token_url ("11111111111111111111111111111111")],
        Except.ok [(("11111111111111111111111111111111"),
          (⟨0, 0⟩ : PriceInfo))]) := by
  decide

/-- Witness for C2's amended theorem: BirdEye marks the field-lacking
address invalid and fails the whole batch. -/
theorem priceinfo_field_presence_by_provider_witness :
    ∃ L, BirdEyeClient.fetch_prices
        ⟨200, [(("B"), ⟨some 3, none, none, none, none, none, []⟩)]⟩ [("B")] =
        ([birdeye_multi_price_url [("B")]],
          Except.error (Err.invalidTokensList L)) ∧ ("B") ∈ L :=
  priceinfo_field_presence_by_provider.1
    ⟨200, [(("B"), ⟨some 3, none, none, none, none, none, []⟩)]⟩ [("B")] ("B")
    ⟨some 3, none, none, none, none, none, []⟩
    (by decide) rfl (by simp) (by decide)

/-- C6 (amended): `find_largest_pool_with_sol` considers only pairs whose
base token equals the given address and whose quote token is the wrapped-SOL
mint; when it returns a pair, that pair matches the filter, all matching
pairs have `liquidityUsd` at most its own, and it is the first-encountered
maximum (every earlier matching pair is strictly smaller — ties resolved
first-seen, comparison strict `>`); the result is empty exactly when every
matching pair has `liquidityUsd` at most the `-1` sentinel — in particular
when no pair matches, but also (unlike the claim) when all matching pairs
have `liquidityUsd ≤ -1`.  The reduction is a pure function of its inputs. -/
theorem find_largest_pool_characterization
    (token_pairs : List DexScreenerClient.TokenPair) (address : String) :
    (DexScreenerClient.find_largest_pool_with_sol token_pairs address = none ↔
      ∀ p ∈ token_pairs, DexScreenerClient.poolMatches address p = true →
        DexScreenerClient.liquidityUsdOf p ≤ -1)
    ∧ (∀ q, DexScreenerClient.find_largest_pool_with_sol token_pairs address = some q →
        DexScreenerClient.poolMatches address q = true
        ∧ -1 < DexScreenerClient.liquidityUsdOf q
        ∧ (∀ p ∈ token_pairs, DexScreenerClient.poolMatches address p = true →
            DexScreenerClient.liquidityUsdOf p ≤ DexScreenerClient.liquidityUsdOf q)
        ∧ ∃ l₁ l₂, token_pairs = l₁ ++ q :: l₂
            ∧ ∀ p ∈ l₁, DexScreenerClient.poolMatches address p = true →
                DexScreenerClient.liquidityUsdOf p < DexScreenerClient.liquidityUsdOf q) := by
  constructor
  · unfold DexScreenerClient.find_largest_pool_with_sol
    rw [poolLoop_none_iff]
    simp
  · intro q hq
    unfold DexScreenerClient.find_largest_pool_with_sol at hq
    rcases poolLoop_some_split address token_pairs _ _ _ hq with
      ⟨h, -⟩ | ⟨l₁, l₂, hsplit, hmq, hltq, h₁, h₂⟩
    · cases h
    · refine ⟨hmq, hltq, ?_, l₁, l₂, hsplit, h₁⟩
      intro p hp hmp
      rw [hsplit] at hp
      rcases List.mem_append.mp hp with h' | h'
      · exact le_of_lt (h₁ p h' hmp)
      · rcases List.mem_cons.mp h' with rfl | h''
        · exact le_refl _
        · exact h₂ p h'' hmp

/-- Counterexample for C6 as stated: a pair that passes the filter but has
negative `liquidityUsd` is not returned — the result is empty even though a
matching pair exists, because the running maximum starts at `-1`. -/
theorem pool_matching_negative_liquidity_dropped :
    DexScreenerClient.poolMatches ("T")
      ⟨some ("T"), SOL_MINT, some (-2)⟩ = true ∧
    DexScreenerClient.find_largest_pool_with_sol
      [⟨some ("T"), SOL_MINT, some (-2)⟩] ("T") = none := by
  constructor <;> decide

/-- Witness for C6's amended theorem on the spec's own example
(usd 10 / usd 50 / wrong-quote usd 1000): the usd-50 pair is returned,
matches the filter, and dominates all matching pairs. -/
theorem find_largest_pool_characterization_witness :
    DexScreenerClient.poolMatches ("T") ⟨some ("T"), SOL_MINT, some 50⟩ = true ∧
    (-1 : ℚ) < DexScreenerClient.liquidityUsdOf ⟨some ("T"), SOL_MINT, some 50⟩ := by
  have h := (find_largest_pool_characterization
      [⟨some ("T"), SOL_MINT, some 10⟩, ⟨some ("T"), SOL_MINT, some 50⟩,
        ⟨some ("T"), ("OTHER"), some 1000⟩] ("T")).2
      ⟨some ("T"), SOL_MINT, some 50⟩ (by decide)
  exact ⟨h.1, h.2.1⟩

/-- C10 (amended): in `find_largest_pool_with_sol` a filter-passing pair is
returned even when its `liquidity.usd` is 0 or the field is absent
(defaulted to 0), because the running maximum starts at `-1`; but the empty
result is produced exactly when no filter-passing pair has `liquidityUsd`
above `-1` — which coincides with "no pair passes the filter" only when
matching pairs cannot carry `liquidityUsd ≤ -1`. -/
theorem pool_zero_liquidity_returned :
    (∀ (address : String) (p : DexScreenerClient.TokenPair),
      DexScreenerClient.poolMatches address p = true →
      (p.liquidityUsd = none ∨ p.liquidityUsd = some 0) →
      DexScreenerClient.find_largest_pool_with_sol [p] address = some p)
    ∧ (∀ (token_pairs : List DexScreenerClient.TokenPair) (address : String),
      DexScreenerClient.find_largest_pool_with_sol token_pairs address = none →
      ∀ p ∈ token_pairs, DexScreenerClient.poolMatches address p = true →
        DexScreenerClient.liquidityUsdOf p ≤ -1) := by
  constructor
  · intro address p hm h0
    have husd : DexScreenerClient.liquidityUsdOf p = 0 := by
      rcases h0 with h | h <;> simp [DexScreenerClient.liquidityUsdOf, h]
    have hlt : (-1 : ℚ) < 0 := by norm_num
    unfold DexScreenerClient.find_largest_pool_with_sol
    simp [DexScreenerClient.poolLoop, hm, husd, hlt]
  · intro token_pairs address hnone
    exact ((poolLoop_none_iff address token_pairs none (-1)).mp
      (by simpa [DexScreenerClient.find_largest_pool_with_sol] using hnone)).2

/-- Counterexample for C10 as stated: a pair passing the filter with
`liquidity.usd = -5` yields the empty result, so "empty only when no pair
passes the filter" is false. -/
theorem pool_filter_pass_yet_empty :
    DexScreenerClient.poolMatches ("U")
      ⟨some ("U"), SOL_MINT, some (-5)⟩ = true ∧
    DexScreenerClient.find_largest_pool_with_sol
      [⟨some ("U"), SOL_MINT, some (-5)⟩] ("U") = none := by
  constructor <;> decide

/-- Witness for C10's amended theorem: a matching pair with absent
`liquidity.usd` is returned. -/
theorem pool_zero_liquidity_returned_witness :
    DexScreenerClient.find_largest_pool_with_sol
      [⟨some ("W"), SOL_MINT, none⟩] ("W") = some ⟨some ("W"), SOL_MINT, none⟩ :=
  pool_zero_liquidity_returned.1 ("W") ⟨some ("W"), SOL_MINT, none⟩
    (by decide) (Or.inl rfl)

/-- C8: DexScreener `fetch_prices_dex` processes addresses in order and
fails fast: when every address before the first invalid one validates and
fetches with status 200, the call fails with `InvalidSolanaAddress` for
that first invalid address, with network calls issued only for the earlier
addresses (none for it or any later address); and when an address's HTTP
fetch returns non-200, the whole call fails immediately with
`InvalidTokens`, the trace stopping at that address and no partial mapping
being returned. -/
theorem dex_fetch_prices_fail_fast :
    (∀ (net : String → DexResponse) (pre : List String) (bad : String)
        (post : List String),
      (∀ a ∈ pre, is_solana_address a = Except.ok true ∧
        (net (dex_token_url a)).status_code = 200) →
      is_solana_address bad = Except.ok false →
      DexScreenerClient.fetch_prices_dex net (pre ++ bad :: post) =
        (pre.map dex_token_url, Except.error (Err.invalidSolanaAddress bad)))
    ∧ (∀ (net : String → DexResponse) (pre : List String) (a : String)
        (post : List String),
      (∀ b ∈ pre, is_solana_address b = Except.ok true ∧
        (net (dex_token_url b)).status_code = 200) →
      is_solana_address a = Except.ok true →
      (net (dex_token_url a)).status_code ≠ 200 →
      DexScreenerClient.fetch_prices_dex net (pre ++ a :: post) =
        ((pre ++ [a]).map dex_token_url, Except.error Err.invalidTokensNone)) := by
  constructor
  · intro net pre bad post hpre hbad
    unfold DexScreenerClient.fetch_prices_dex
    rw [if_neg (by simp), pricesDexLoop_invalid net bad post hbad pre hpre [] []]
    simp
  · intro net pre a post hpre ha hfail
    unfold DexScreenerClient.fetch_prices_dex
    rw [if_neg (by simp), pricesDexLoop_http net a post ha hfail pre hpre [] []]
    simp

/-- Witness for C8: with a valid first address (fetched with 200), an
invalid second address and a third address, the call fails with
`InvalidSolanaAddress` for the second and only the first address's URL was
requested. -/
theorem dex_fetch_prices_fail_fast_witness :
    DexScreenerClient.fetch_prices_dex
        (fun _ => ⟨200, ⟨none, none, none, none, none, none⟩⟩)
        [("11111111111111111111111111111111"), ("!!"), ("zzz")] =
      ([dex_token_url ("11111111111111111111111111111111")],
        Except.error (Err.invalidSolanaAddress ("!!"))) := by
  have h := dex_fetch_prices_fail_fast.1
      (fun _ => ⟨200, ⟨none, none, none, none, none, none⟩⟩)
      [("11111111111111111111111111111111")] ("!!") [("zzz")]
      (by decide) (by decide)
  simpa using h

end Clients
